import Mathlib

/-!
Shallow embedding of `data/engine/sql/repository.go` from the
BugSquad/Morshed_BackEnd repository: a generic SQL data-access helper that
assembles parameterized SQL statements and delegates execution to a database
handle.

Modelling choices:
- Go `interface{}` attribute values become the inductive `GoValue`
  (string / int / bool / nil / any other dynamic type).
- `reflect.Kind` becomes the inductive `Kind` (the three kinds the code
  inspects, plus a tag for every other kind).
- Go maps (`map[string]interface{}`, `map[string]reflect.Kind`) become
  association lists `List (String × _)` representing one map-iteration order;
  theorems quantify over the list, hence over every iteration order.
- The database handle becomes an oracle structure `Database` of pure
  functions; each Repository operation additionally returns the list of
  statements it issued to the handle, so "issues no statement" is the trace
  being `[]`. A destination is only written through a handle call, so an
  empty trace also means the destination is untouched.
- Go errors become the inductive `DBError`; `sql.ErrNoRows` is
  `DBError.noRows` and the repository's `ErrUnprocessable` is
  `DBError.unprocessable`.
-/

set_option autoImplicit false

namespace Morshed

/-- A dynamically typed Go value (`interface{}`): the three scalar kinds the
repository validates, the nil interface value, and a tag for any other
dynamic type (which the validation switch passes through unchecked). -/
inductive GoValue where
  | str (s : String)
  | int (n : Int)
  | bool (b : Bool)
  | null
  | other (tag : Nat)
  deriving DecidableEq, Repr

/-- A `reflect.Kind`: the three kinds `PartialUpdate` compares against,
plus a tag for every other kind. -/
inductive Kind where
  | string
  | int
  | bool
  | other (tag : Nat)
  deriving DecidableEq, Repr

/-- An error value: `sql.ErrNoRows`, the repository's `ErrUnprocessable`,
or any other handle-level error. -/
inductive DBError where
  | noRows
  | unprocessable
  | other (code : Nat)
  deriving DecidableEq, Repr

/-- `ErrNoRows` — a shortcut of `sql.ErrNoRows`. -/
def ErrNoRows : DBError := DBError.noRows

/-- `ErrUnprocessable` — error caused by an invalid entity. -/
def ErrUnprocessable : DBError := DBError.unprocessable

/-- A `sql.Result`: the affected-row count the handle reports. -/
structure SQLResult where
  rowsAffected : Int
  deriving DecidableEq, Repr

/-- A statement issued to the database handle: query text plus positional
arguments. -/
structure Stmt where
  query : String
  args : List GoValue
  deriving DecidableEq, Repr

/-- The database handle, as an oracle of pure functions.
`Select` binds a value (an `Int` total for `Count`; `List` only consumes the
error component), `Get` binds a single destination and reports an error or
success, `Exec` runs a statement and reports a `sql.Result` (possibly nil)
or an error. -/
structure Database where
  Select : String → List GoValue → Except DBError Int
  Get : String → List GoValue → Option DBError
  Exec : String → List GoValue → Except DBError (Option SQLResult)

/-- The record descriptor: table name, primary-key column, and — when the
record also implements the `Sorted` interface — its default sort column. -/
structure Record where
  TableName : String
  PrimaryKey : String
  SortBy : Option String

/-- A columns schema `map[string]reflect.Kind` in one iteration order. -/
abbrev Schema := List (String × Kind)

/-- An attribute map `map[string]interface{}` in one iteration order. -/
abbrev AttrMap := List (String × GoValue)

/-- The sequence of statements an operation issued to the handle. -/
abbrev Trace := List Stmt

/-- `Repository` — holder for common queries: a database handle plus a
record descriptor (the Go field `rec`, renamed because `rec` is reserved
for the recursor in Lean). -/
structure Repository where
  db : Database
  record : Record

/-- `Count` — runs `SELECT COUNT(DISTINCT pk) FROM table`; a
`sql.ErrNoRows` result from the handle is coerced to a nil error, the total
keeping its zero value. Returns (issued statements, total, error). -/
def Repository.Count (r : Repository) : List Stmt × Int × Option DBError :=
  let q := "SELECT COUNT(DISTINCT " ++ r.record.PrimaryKey ++ ") FROM " ++ r.record.TableName
  match r.db.Select q [] with
  | Except.ok total => ([⟨q, []⟩], total, none)
  | Except.error e => ([⟨q, []⟩], 0, if e = DBError.noRows then none else some e)

/-- `GetByAttrs` — builds a `WHERE` clause from the attribute map (one
`col = ?` term per entry, joined by `strings.Join(keyLines, ", ")`) and runs
`Get`. An empty map is a silent no-op. Returns (issued statements, error). -/
def Repository.GetByAttrs (r : Repository) (attrs : List (String × GoValue)) :
    List Stmt × Option DBError :=
  if attrs.length = 0 then ([], none)
  else
    let keyLines := attrs.map (fun kv => kv.1 ++ " = ?")
    let values := attrs.map Prod.snd
    if values.length = 0 then ([], none)
    else
      let q := "SELECT * FROM " ++ r.record.TableName ++ " WHERE "
        ++ String.intercalate ", " keyLines ++ ";"
      ([⟨q, values⟩], r.db.Get q values)

/-- `GetAffectedRows` — the affected-row count of a DELETE or UPDATE
result; a nil result yields 0. -/
def GetAffectedRows : Option SQLResult → Int
  | none => 0
  | some result => result.rowsAffected

/-- `DeleteByID` — runs `DELETE FROM table WHERE pk = ? LIMIT 1` and
reports `GetAffectedRows` of the handle result, or the handle error with
count 0. Returns (issued statements, count, error). -/
def Repository.DeleteByID (r : Repository) (id : Int) :
    List Stmt × Int × Option DBError :=
  let q := "DELETE FROM " ++ r.record.TableName ++ " WHERE " ++ r.record.PrimaryKey
    ++ " = ? LIMIT 1"
  match r.db.Exec q [GoValue.int id] with
  | Except.error e => ([⟨q, [GoValue.int id]⟩], 0, some e)
  | Except.ok res => ([⟨q, [GoValue.int id]⟩], GetAffectedRows res, none)

/-- `ListOptions` — the options passed to `Repository.List`. Field order
and defaults follow the Go struct; `WhereValue` is nil by default. -/
structure ListOptions where
  Table : String := ""
  Offset : Nat := 0
  Limit : Nat := 0
  OrderByColumn : String := ""
  Order : String := ""
  WhereColumn : String := ""
  WhereValue : GoValue := GoValue.null

/-- The constant `ascending = "ASC"`. -/
def ascending : String := "ASC"

/-- The constant `descending = "DESC"`. -/
def descending : String := "DESC"

/-- `strings.TrimSpace`, modelled on the character list: drop leading and
trailing whitespace characters. -/
def TrimSpace (s : String) : String :=
  ⟨((s.data.dropWhile Char.isWhitespace).reverse.dropWhile Char.isWhitespace).reverse⟩

/-- `strings.ToUpper`, modelled on the character list. -/
def ToUpper (s : String) : String :=
  ⟨s.data.map Char.toUpper⟩

/-- `strings.HasPrefix s p` — whether `p` is a prefix of `s`. -/
def HasPrefix (s p : String) : Bool :=
  List.isPrefixOf p.data s.data

/-- `ParseOrder` — trims the input; a trimmed string of length at least 4
whose uppercasing starts with `"DESC"` yields `"DESC"`, everything else
yields `"ASC"`. -/
def ParseOrder (order : String) : String :=
  let order := TrimSpace order
  if order.length ≥ 4 then
    if HasPrefix (ToUpper order) descending then descending
    else ascending
  else ascending

/-- `ListOptions.BuildQuery` — assembles the SELECT command: table, then
the single equality filter (only when the column is non-empty and the value
non-nil), then ORDER BY, then LIMIT, then OFFSET. -/
def ListOptions.BuildQuery (opt : ListOptions) : String × List GoValue :=
  let q := "SELECT * FROM " ++ opt.Table
  let qa :=
    if opt.WhereColumn ≠ "" ∧ opt.WhereValue ≠ GoValue.null then
      (q ++ " WHERE " ++ opt.WhereColumn ++ " = ?", [opt.WhereValue])
    else (q, ([] : List GoValue))
  let q := qa.1
  let args := qa.2
  let q :=
    if opt.OrderByColumn ≠ "" then
      q ++ " ORDER BY " ++ opt.OrderByColumn ++ " " ++ ParseOrder opt.Order
    else q
  let q := if opt.Limit > 0 then q ++ " LIMIT " ++ toString opt.Limit else q
  let q := if opt.Offset > 0 then q ++ " OFFSET " ++ toString opt.Offset else q
  (q, args)

/-- `Repository.List` — resolves an empty `Table` to the record's table and
an empty `OrderByColumn` to the record's default sort column (when the
record implements `Sorted`), then builds and executes the query. Returns
(issued statements, error). -/
def Repository.List (r : Repository) (opts : ListOptions) :
    List Stmt × Option DBError :=
  let opts :=
    if opts.Table = "" then { opts with Table := r.record.TableName } else opts
  let opts :=
    if opts.OrderByColumn = "" then
      match r.record.SortBy with
      | some col => { opts with OrderByColumn := col }
      | none => opts
    else opts
  let qa := opts.BuildQuery
  ([⟨qa.1, qa.2⟩],
   match r.db.Select qa.1 qa.2 with
   | Except.ok _ => none
   | Except.error e => some e)

/-- The kind check of `PartialUpdate`'s switch: a string, int or bool value
must carry the matching declared kind; every other value passes through
unchecked. -/
def kindOK : GoValue → Kind → Bool
  | GoValue.str _, Kind.string => true
  | GoValue.str _, _ => false
  | GoValue.int _, Kind.int => true
  | GoValue.int _, _ => false
  | GoValue.bool _, Kind.bool => true
  | GoValue.bool _, _ => false
  | _, _ => true

/-- The validation loop of `PartialUpdate`: walks the schema in iteration
order; a key absent from the attribute map is skipped, a kind mismatch
aborts with `none`, otherwise the `col = ?` line and the value are
collected in order. -/
def partialUpdateCollect (attrs : List (String × GoValue)) :
    List (String × Kind) → Option (List String × List GoValue)
  | [] => some ([], [])
  | (key, kind) :: rest =>
    match List.lookup key attrs with
    | none => partialUpdateCollect attrs rest
    | some v =>
      if kindOK v kind then
        match partialUpdateCollect attrs rest with
        | none => none
        | some kv => some ((key ++ " = ?") :: kv.1, v :: kv.2)
      else none

/-- `PartialUpdate` — validates the attribute map against the schema and,
when at least one attribute survives, runs
`UPDATE table SET col = ?, ... WHERE pk = ?`. Returns (issued statements,
affected-row count, error). -/
def Repository.PartialUpdate (r : Repository) (id : Int)
    (schema : Schema) (attrs : AttrMap) :
    Trace × Int × Option DBError :=
  if schema.length = 0 ∨ attrs.length = 0 then ([], 0, none)
  else
    match partialUpdateCollect attrs schema with
    | none => ([], 0, some ErrUnprocessable)
    | some kv =>
      if kv.2.length = 0 then ([], 0, none)
      else
        let q := "UPDATE " ++ r.record.TableName ++ " SET "
          ++ String.intercalate ", " kv.1 ++ " WHERE " ++ r.record.PrimaryKey ++ " = ?;"
        let args := kv.2 ++ [GoValue.int id]
        match r.db.Exec q args with
        | Except.error e => ([⟨q, args⟩], 0, some e)
        | Except.ok res => ([⟨q, args⟩], GetAffectedRows res, none)

/-! Concrete fixtures used to instantiate the theorems below. -/

/-- A record descriptor for a `users` table keyed by `id`, without a
default sort column. -/
def rec0 : Record := ⟨"users", "id", none⟩

/-- A handle on which every operation succeeds: totals bind 0, gets find a
row, executions report one affected row. -/
def dbOK : Database :=
  ⟨fun _ _ => Except.ok 0, fun _ _ => none, fun _ _ => Except.ok (some ⟨1⟩)⟩

/-- A handle whose `Select` reports `sql.ErrNoRows`. -/
def dbNoRows : Database :=
  { dbOK with Select := fun _ _ => Except.error DBError.noRows }

/-- A handle on which every operation fails with a generic error. -/
def dbErr7 : Database :=
  ⟨fun _ _ => Except.error (DBError.other 7),
   fun _ _ => some (DBError.other 7),
   fun _ _ => Except.error (DBError.other 7)⟩

/-- A handle whose executions report three affected rows. -/
def dbRows3 : Database :=
  { dbOK with Exec := fun _ _ => Except.ok (some ⟨3⟩) }

/-- Claim C7: `GetByAttrs` called with an empty attribute map returns a nil
error without issuing any query to the database handle (so the destination,
which is only written through handle calls, is untouched). -/
theorem C7_getByAttrs_empty (r : Repository) : r.GetByAttrs [] = ([], none) := rfl

/-- Claim C5: `ParseOrder` trims whitespace and returns `"DESC"` exactly
when the trimmed string has length at least 4 and case-insensitively starts
with `"DESC"`, otherwise `"ASC"`; in particular on `"Descending"`, `"asc"`,
`""` and `"d"`. -/
theorem C5_parseOrder :
    (∀ s : String,
      ParseOrder s =
        if 4 ≤ (TrimSpace s).length ∧ HasPrefix (ToUpper (TrimSpace s)) "DESC" = true
        then "DESC" else "ASC")
    ∧ ParseOrder "Descending" = "DESC"
    ∧ ParseOrder "asc" = "ASC"
    ∧ ParseOrder "" = "ASC"
    ∧ ParseOrder "d" = "ASC" := by
  refine ⟨fun s => ?_, by decide, by decide, by decide, by decide⟩
  unfold ParseOrder descending ascending
  by_cases h1 : 4 ≤ (TrimSpace s).length
  · by_cases h2 : HasPrefix (ToUpper (TrimSpace s)) "DESC" = true
    · simp [h1, h2]
    · simp [h1, h2]
  · simp [h1]

/-- Claim C1 (evaluation at the failing input): on the two-entry attribute
map `age ↦ 30, city ↦ "Roma"`, `GetByAttrs` issues the query
`SELECT * FROM users WHERE age = ?, city = ?;` — the `col = ?` terms are
joined by `", "`, not by `" AND "` (the built string contains no
`" AND "`), contradicting the claimed conjunction. -/
theorem C1_getByAttrs_comma_joined :
    Repository.GetByAttrs ⟨dbOK, rec0⟩ [("age", GoValue.int 30), ("city", GoValue.str "Roma")]
      = ([⟨"SELECT * FROM users WHERE age = ?, city = ?;",
           [GoValue.int 30, GoValue.str "Roma"]⟩], none)
    ∧ ¬ (" AND ".data <:+: "SELECT * FROM users WHERE age = ?, city = ?;".data) :=
  ⟨rfl, by decide⟩

/-- Claim C4: for every table and primary-key pair, when the handle reports
`sql.ErrNoRows` for the count query `Count` returns total 0 and a nil
error; any other handle error is returned unmodified (with total 0, the
zero value the handle left untouched). -/
theorem C4_count_noRows (db : Database) (rc : Record) (e : DBError)
    (h : db.Select
          ("SELECT COUNT(DISTINCT " ++ rc.PrimaryKey ++ ") FROM " ++ rc.TableName) []
        = Except.error e) :
    (Repository.Count ⟨db, rc⟩).2 = (0, if e = DBError.noRows then none else some e) := by
  unfold Repository.Count
  simp only [h]

/-- Witness for C4: on a handle whose `Select` reports `sql.ErrNoRows`,
`Count` over the `users` record yields total 0 and no error. -/
theorem C4_witness : (Repository.Count ⟨dbNoRows, rec0⟩).2 = (0, none) := by
  have h := C4_count_noRows dbNoRows rec0 DBError.noRows rfl
  simpa using h

/-- Claim C8: `DeleteByID` returns exactly the affected-row count the
handle reports for the delete statement, and a handle execution error is
returned unmodified together with count 0. -/
theorem C8_deleteByID (r : Repository) (id : Int) (e : DBError) (res : SQLResult) :
    (r.db.Exec
        ("DELETE FROM " ++ r.record.TableName ++ " WHERE " ++ r.record.PrimaryKey
          ++ " = ? LIMIT 1") [GoValue.int id] = Except.error e →
      (r.DeleteByID id).2 = (0, some e))
    ∧ (r.db.Exec
        ("DELETE FROM " ++ r.record.TableName ++ " WHERE " ++ r.record.PrimaryKey
          ++ " = ? LIMIT 1") [GoValue.int id] = Except.ok (some res) →
      (r.DeleteByID id).2 = (res.rowsAffected, none)) := by
  constructor <;> intro h <;>
    simp only [Repository.DeleteByID, h, GetAffectedRows]

/-- Witness for C8: on an always-failing handle `DeleteByID` propagates the
error with count 0; on a handle reporting three affected rows it returns 3
with no error. -/
theorem C8_witness :
    (Repository.DeleteByID ⟨dbErr7, rec0⟩ 1).2 = (0, some (DBError.other 7))
    ∧ (Repository.DeleteByID ⟨dbRows3, rec0⟩ 1).2 = (3, none) :=
  ⟨(C8_deleteByID ⟨dbErr7, rec0⟩ 1 (DBError.other 7) ⟨3⟩).1 rfl,
   (C8_deleteByID ⟨dbRows3, rec0⟩ 1 (DBError.other 7) ⟨3⟩).2 rfl⟩

/-- Claim C2: `BuildQuery` is a (deterministic) function of the
`ListOptions` value appending clauses in the fixed order table, filter,
order, limit, offset — each clause's text depends only on its own fields —
and on `{Table := "users", WhereColumn := "id", WhereValue := 5,
OrderByColumn := "name", Order := "desc", Limit := 10, Offset := 20}` it
returns `SELECT * FROM users WHERE id = ? ORDER BY name DESC LIMIT 10
OFFSET 20` with argument list `[5]`. -/
theorem C2_buildQuery :
    (∀ opt : ListOptions,
      opt.BuildQuery =
        ("SELECT * FROM " ++ opt.Table
          ++ (if opt.WhereColumn ≠ "" ∧ opt.WhereValue ≠ GoValue.null then
                " WHERE " ++ opt.WhereColumn ++ " = ?" else "")
          ++ (if opt.OrderByColumn ≠ "" then
                " ORDER BY " ++ opt.OrderByColumn ++ " " ++ ParseOrder opt.Order else "")
          ++ (if opt.Limit > 0 then " LIMIT " ++ toString opt.Limit else "")
          ++ (if opt.Offset > 0 then " OFFSET " ++ toString opt.Offset else ""),
         if opt.WhereColumn ≠ "" ∧ opt.WhereValue ≠ GoValue.null then [opt.WhereValue] else []))
    ∧ ListOptions.BuildQuery ⟨"users", 20, 10, "name", "desc", "id", GoValue.int 5⟩
        = ("SELECT * FROM users WHERE id = ? ORDER BY name DESC LIMIT 10 OFFSET 20",
           [GoValue.int 5]) := by
  constructor
  · intro opt
    unfold ListOptions.BuildQuery
    split_ifs <;> simp_all [String.append_assoc, String.append_empty] <;>
      (apply String.ext; simp [String.data_append])
  · decide

/-- Claim C10: `BuildQuery` adds a `WHERE` clause (and its single bound
argument) only when `WhereColumn` is non-empty and `WhereValue` is non-nil;
with `WhereValue` nil the result coincides with the query built with no
`WhereColumn` at all and the argument list is empty. -/
theorem C10_buildQuery_where (opt : ListOptions) :
    (opt.BuildQuery.2
      = if opt.WhereColumn ≠ "" ∧ opt.WhereValue ≠ GoValue.null
        then [opt.WhereValue] else [])
    ∧ (opt.WhereValue = GoValue.null →
        opt.BuildQuery = ListOptions.BuildQuery { opt with WhereColumn := "" }
        ∧ opt.BuildQuery.2 = []) := by
  constructor
  · unfold ListOptions.BuildQuery
    split_ifs <;> simp_all
  · intro h
    unfold ListOptions.BuildQuery
    simp [h]

/-- Witness for C10: with `WhereColumn := "id"` but a nil `WhereValue`, the
built query coincides with the one built with no filter column and the
argument list is empty. -/
theorem C10_witness :
    ListOptions.BuildQuery ⟨"users", 0, 0, "", "", "id", GoValue.null⟩
      = ListOptions.BuildQuery ⟨"users", 0, 0, "", "", "", GoValue.null⟩
    ∧ (ListOptions.BuildQuery ⟨"users", 0, 0, "", "", "id", GoValue.null⟩).2 = [] :=
  (C10_buildQuery_where ⟨"users", 0, 0, "", "", "id", GoValue.null⟩).2 rfl

/-- Claim C9: `List` issues exactly the query and arguments `BuildQuery`
yields from the options after two substitutions only — an empty `Table`
becomes the record's table name and an empty `OrderByColumn` becomes the
record's default sort column when the record advertises one — every other
field passing through unchanged, and it returns the handle's outcome for
that query. -/
theorem C9_list (r : Repository) (opts : ListOptions) :
    r.List opts =
      (let resolved : ListOptions :=
        { opts with
          Table := if opts.Table = "" then r.record.TableName else opts.Table,
          OrderByColumn :=
            if opts.OrderByColumn = "" then
              (match r.record.SortBy with
               | some col => col
               | none => opts.OrderByColumn)
            else opts.OrderByColumn }
      ([⟨resolved.BuildQuery.1, resolved.BuildQuery.2⟩],
       match r.db.Select resolved.BuildQuery.1 resolved.BuildQuery.2 with
       | Except.ok _ => none
       | Except.error e => some e)) := by
  obtain ⟨tb, off, lim, obc, ord, wc, wv⟩ := opts
  unfold Repository.List
  by_cases h1 : tb = "" <;> by_cases h2 : obc = "" <;>
    cases hs : r.record.SortBy <;> simp_all

/-- If some key of the schema is bound in the attribute map to a string,
int or bool value whose kind disagrees with the declared one, the
validation loop aborts. -/
lemma partialUpdateCollect_eq_none (attrs : AttrMap) :
    ∀ schema : Schema,
      (∃ key kind v, (key, kind) ∈ schema ∧ List.lookup key attrs = some v
        ∧ kindOK v kind = false) →
      partialUpdateCollect attrs schema = none := by
  intro schema
  induction schema with
  | nil =>
    rintro ⟨k, kd, v, hmem, -, -⟩
    simp at hmem
  | cons hd tl ih =>
    rintro ⟨k, kd, v, hmem, hlook, hbad⟩
    obtain ⟨key, kind⟩ := hd
    rcases List.mem_cons.mp hmem with heq | hmem2
    · injection heq with hk hkd
      subst hk
      subst hkd
      simp [partialUpdateCollect, hlook, hbad]
    · cases hl : List.lookup key attrs with
      | none =>
        simpa [partialUpdateCollect, hl] using ih ⟨k, kd, v, hmem2, hlook, hbad⟩
      | some v0 =>
        by_cases hok : kindOK v0 kind = true
        · simp [partialUpdateCollect, hl, hok, ih ⟨k, kd, v, hmem2, hlook, hbad⟩]
        · simp [partialUpdateCollect, hl, hok]

/-- Claim C3: whenever some key present in both maps carries a string, int
or bool attribute value disagreeing with the schema's declared kind,
`PartialUpdate` returns the `ErrUnprocessable` error with affected-row
count 0 and issues no statement to the handle. -/
theorem C3_partialUpdate_mismatch (r : Repository) (id : Int)
    (schema : Schema) (attrs : AttrMap)
    (h : ∃ key kind v, (key, kind) ∈ schema ∧ List.lookup key attrs = some v
          ∧ kindOK v kind = false) :
    r.PartialUpdate id schema attrs = ([], 0, some ErrUnprocessable) := by
  obtain ⟨k, kd, v, hmem, hlook, hbad⟩ := h
  have hs : ¬ schema.length = 0 := by
    intro h0
    rw [List.length_eq_zero] at h0
    subst h0
    simp at hmem
  have ha : ¬ attrs.length = 0 := by
    intro h0
    rw [List.length_eq_zero] at h0
    subst h0
    simp [List.lookup] at hlook
  have hc := partialUpdateCollect_eq_none attrs schema ⟨k, kd, v, hmem, hlook, hbad⟩
  simp [Repository.PartialUpdate, hs, ha, hc]

/-- Witness for C3: the spec's example — schema `{name ↦ string}`, attrs
`{name ↦ 5}` — makes `PartialUpdate` fail with `ErrUnprocessable`, count 0
and no statement issued. -/
theorem C3_witness :
    Repository.PartialUpdate ⟨dbOK, rec0⟩ 7 [("name", Kind.string)] [("name", GoValue.int 5)]
      = ([], 0, some ErrUnprocessable) :=
  C3_partialUpdate_mismatch ⟨dbOK, rec0⟩ 7 _ _
    ⟨"name", Kind.string, GoValue.int 5, by simp, by decide, rfl⟩

/-- If no key of the schema is bound in the attribute map, the validation
loop collects nothing. -/
lemma partialUpdateCollect_eq_nil (attrs : AttrMap) :
    ∀ schema : Schema,
      (∀ kv ∈ schema, List.lookup kv.1 attrs = none) →
      partialUpdateCollect attrs schema = some ([], []) := by
  intro schema
  induction schema with
  | nil => intro _; rfl
  | cons hd tl ih =>
    intro h
    obtain ⟨key, kind⟩ := hd
    have hk : List.lookup key attrs = none := h (key, kind) (List.mem_cons_self _ _)
    have ht := ih fun kv hkv => h kv (List.mem_cons_of_mem _ hkv)
    simp [partialUpdateCollect, hk, ht]

/-- Claim C6: `PartialUpdate` with an empty schema, an empty attribute map,
or no schema key occurring in the attribute map returns count 0 and a nil
error without calling the database handle. -/
theorem C6_partialUpdate_noop (r : Repository) (id : Int)
    (schema : Schema) (attrs : AttrMap)
    (h : schema = [] ∨ attrs = [] ∨ ∀ kv ∈ schema, List.lookup kv.1 attrs = none) :
    r.PartialUpdate id schema attrs = ([], 0, none) := by
  rcases h with h | h | h
  · subst h
    simp [Repository.PartialUpdate]
  · subst h
    simp [Repository.PartialUpdate]
  · by_cases hs : schema.length = 0
    · simp [Repository.PartialUpdate, hs]
    · by_cases ha : attrs.length = 0
      · simp [Repository.PartialUpdate, ha]
      · have hc := partialUpdateCollect_eq_nil attrs schema h
        simp [Repository.PartialUpdate, hs, ha, hc]

/-- Witness for C6: with an empty schema (and a non-empty attribute map)
`PartialUpdate` returns count 0, no error and no issued statement. -/
theorem C6_witness :
    Repository.PartialUpdate ⟨dbOK, rec0⟩ 1 [] [("name", GoValue.int 5)] = ([], 0, none) :=
  C6_partialUpdate_noop ⟨dbOK, rec0⟩ 1 [] [("name", GoValue.int 5)] (Or.inl rfl)

end Morshed
